import Mathlib

/-!
Verification of the embassy environmental-sensor drivers.

The repository contains two drivers sharing one architectural pattern:
a pressure/humidity/temperature driver (`BME280Sensor`, in
`src/scd41_rp.rs`) built around a calibration store and fixed-point
compensation, and a CO2/humidity/temperature state-machine driver
described in the design document (its source file is not part of the
`src/` tree; it is modelled from the design document below).

The I2C transport is modelled as a script: a list of transaction
outcomes consumed in order, one per transaction the driver issues.  An
exhausted script behaves like a failing transport.  Every driver
operation returns, besides its result, the unconsumed rest of the
script and the trace of transactions it issued, so that theorems can
speak about which bus transactions happen and in which order.
Floating-point results (`f32` in the source) are modelled as exact
rationals; timers and the wall-clock timeout of `setup` are modelled
by a fuel bound on the polling loop.
-/

/-- Outcome of one scripted bus transaction: the bytes read on success,
or a transport failure. -/
abbrev BusResp := Except Unit (List Nat)

/-- A bus transaction issued by a driver: an addressed write, or an
addressed write-then-read with the given read length
(`embedded_hal_async::i2c::I2c::write` / `write_read`). -/
inductive I2CTxn where
  | write (addr : Nat) (bytes : List Nat)
  | writeRead (addr : Nat) (wbytes : List Nat) (readLen : Nat)
deriving DecidableEq, Repr

/-- Errors of the compensation-based driver.  Modelled from the spec:
the crate-root `BME280Error` enum is not under `src/`; its variants are
those named by the spec's error taxonomy and the example's match arms. -/
inductive BME280Error where
  | NoData
  | I2CError
  | Timeout
  | InvalidChipId (id : Nat)
  | NotCalibrated
deriving DecidableEq, Repr

/-- A read buffer of length `len`, initialized to zeroes and filled
from the front with the transport's response bytes (the source passes a
zero-initialized `[u8; len]` buffer to `write_read`). -/
def fillBuffer (resp : List Nat) (len : Nat) : List Nat :=
  (resp ++ List.replicate len 0).take len

/-- Embeds `BME280Sensor::i2c_write_read`: issue one write-then-read
transaction, mapping any transport failure to `I2CError`. -/
def i2c_write_read (addr : Nat) (wbytes : List Nat) (len : Nat) (bus : List BusResp) :
    Except BME280Error (List Nat) × List BusResp × List I2CTxn :=
  match bus with
  | [] => (Except.error BME280Error.I2CError, [], [I2CTxn.writeRead addr wbytes len])
  | Except.error _ :: rest =>
      (Except.error BME280Error.I2CError, rest, [I2CTxn.writeRead addr wbytes len])
  | Except.ok bytes :: rest =>
      (Except.ok (fillBuffer bytes len), rest, [I2CTxn.writeRead addr wbytes len])

/-- Embeds `BME280Sensor::i2c_write`: issue one write transaction,
mapping any transport failure to `I2CError`. -/
def i2c_write (addr : Nat) (wbytes : List Nat) (bus : List BusResp) :
    Except BME280Error Unit × List BusResp × List I2CTxn :=
  match bus with
  | [] => (Except.error BME280Error.I2CError, [], [I2CTxn.write addr wbytes])
  | Except.error _ :: rest => (Except.error BME280Error.I2CError, rest, [I2CTxn.write addr wbytes])
  | Except.ok _ :: rest => (Except.ok (), rest, [I2CTxn.write addr wbytes])

/-- Embeds `BME280Sensor::read_register_u8`: read one byte from a
register (the first byte of a one-byte read buffer). -/
def read_register_u8 (addr reg : Nat) (bus : List BusResp) :
    Except BME280Error Nat × List BusResp × List I2CTxn :=
  let r := i2c_write_read addr [reg] 1 bus
  (r.1.map (fun buf => buf.getD 0 0), r.2.1, r.2.2)

/-- Embeds `BME280Sensor::write_register_8u`: write one data byte to a
register. -/
def write_register_8u (addr reg data : Nat) (bus : List BusResp) :
    Except BME280Error Unit × List BusResp × List I2CTxn :=
  i2c_write addr [reg, data] bus

/-- Embeds `BME280Sensor::read_registers_bulk`: burst-read `len` bytes
starting at a register. -/
def read_registers_bulk (addr reg len : Nat) (bus : List BusResp) :
    Except BME280Error (List Nat) × List BusResp × List I2CTxn :=
  i2c_write_read addr [reg] len bus

/-- Modelled from the spec: register map constants defined at the crate
root, which is not under `src/` (values from the device datasheet the
spec's register map describes). -/
def BME280_REGISTER_CHIPID : Nat := 0xD0

/-- Modelled from the spec: soft-reset register address. -/
def BME280_REGISTER_SOFTRESET : Nat := 0xE0

/-- Modelled from the spec: status register address (bit 3 is the
calibration-busy flag). -/
def BME280_REGISTER_STATUS : Nat := 0xF3

/-- Modelled from the spec: humidity-control register address. -/
def BME280_REGISTER_CONTROLHUMID : Nat := 0xF2

/-- Modelled from the spec: measurement-control register address. -/
def BME280_REGISTER_CONTROL : Nat := 0xF4

/-- Modelled from the spec: config register address. -/
def BME280_REGISTER_CONFIG : Nat := 0xF5

/-- Modelled from the spec: the burst data read starts at the pressure
register. -/
def BME280_REGISTER_DATA_START : Nat := 0xF7

/-- Modelled from the spec: the burst data read is 8 bytes. -/
def BME280_REGISTER_DATA_LENGTH : Nat := 8

/-- Modelled from the spec: the first calibration block is 26 bytes. -/
def BME280_REGISTER_DIG_FIRST_LENGTH : Nat := 26

/-- Modelled from the spec: the second calibration block is 7 bytes. -/
def BME280_REGISTER_DIG_SECOND_LENGTH : Nat := 7

/-- An unsigned 16-bit little-endian field of the calibration table. -/
def u16le (lo hi : Nat) : Int := Int.ofNat (lo + 256 * hi)

/-- A signed 16-bit little-endian field of the calibration table. -/
def i16le (lo hi : Nat) : Int :=
  let v := lo + 256 * hi
  if v < 32768 then (v : Int) else (v : Int) - 65536

/-- A signed 8-bit field of the calibration table. -/
def i8val (b : Nat) : Int := if b < 128 then (b : Int) else (b : Int) - 256

/-- Modelled from the spec: the calibration store (`CalibrationRegisters`
in the crate's `calibration` module, not under `src/`) — the named
signed/unsigned coefficient fields parsed from the concatenated
26-byte + 7-byte calibration blocks per the datasheet's fixed layout. -/
structure CalibrationRegisters where
  dig_T1 : Int
  dig_T2 : Int
  dig_T3 : Int
  dig_P1 : Int
  dig_P2 : Int
  dig_P3 : Int
  dig_P4 : Int
  dig_P5 : Int
  dig_P6 : Int
  dig_P7 : Int
  dig_P8 : Int
  dig_P9 : Int
  dig_H1 : Int
  dig_H2 : Int
  dig_H3 : Int
  dig_H4 : Int
  dig_H5 : Int
  dig_H6 : Int
deriving DecidableEq, Repr

/-- Modelled from the spec: parsing the 33-byte concatenated calibration
blocks into named fields (`impl From` used by `data.into()` in
`read_coefficients`), per the datasheet's fixed little-endian layout. -/
def CalibrationRegisters.fromBytes (data : List Nat) : CalibrationRegisters :=
  let b := fun i => data.getD i 0
  { dig_T1 := u16le (b 0) (b 1)
    dig_T2 := i16le (b 2) (b 3)
    dig_T3 := i16le (b 4) (b 5)
    dig_P1 := u16le (b 6) (b 7)
    dig_P2 := i16le (b 8) (b 9)
    dig_P3 := i16le (b 10) (b 11)
    dig_P4 := i16le (b 12) (b 13)
    dig_P5 := i16le (b 14) (b 15)
    dig_P6 := i16le (b 16) (b 17)
    dig_P7 := i16le (b 18) (b 19)
    dig_P8 := i16le (b 20) (b 21)
    dig_P9 := i16le (b 22) (b 23)
    dig_H1 := Int.ofNat (b 25)
    dig_H2 := i16le (b 26) (b 27)
    dig_H3 := Int.ofNat (b 28)
    dig_H4 := i8val (b 29) * 16 + Int.ofNat ((b 30) % 16)
    dig_H5 := i8val (b 31) * 16 + Int.ofNat ((b 30) / 16)
    dig_H6 := i8val (b 32) }

/-- Modelled from the spec: temperature compensation of the
`calibration` module (not under `src/`), the datasheet's fixed-point
path; returns the `t_fine` intermediate (scaled by 2^8) that the other
two compensations consume.  Machine-integer widths are abstracted to
unbounded integers; Rust's arithmetic shift right is `>>>` on `Int`. -/
def CalibrationRegisters.compensate_temperature (cr : CalibrationRegisters) (adc_t : Int) : Int :=
  let var1 := (((adc_t >>> 3) - (cr.dig_T1 * 2)) * cr.dig_T2) >>> 11
  let var2 := (((((adc_t >>> 4) - cr.dig_T1) * ((adc_t >>> 4) - cr.dig_T1)) >>> 12) *
      cr.dig_T3) >>> 14
  var1 + var2

/-- Modelled from the spec: the saturation sentinel pressure
compensation returns when its intermediate denominator would be zero
(the spec fixes only that it is a maximum sentinel). -/
def pressureSentinel : Int := 4294967295

/-- Modelled from the spec: pressure compensation of the `calibration`
module (not under `src/`), the datasheet's fixed-point path producing a
value scaled by 2^8; saturates to `pressureSentinel` when the
intermediate denominator would be zero.  Rust's truncating division is
`Int.div`. -/
def CalibrationRegisters.compensate_pressure (cr : CalibrationRegisters) (adc_p : Nat)
    (t_fine : Int) : Int :=
  let var1 := t_fine - 128000
  let var2 := var1 * var1 * cr.dig_P6 + (var1 * cr.dig_P5) * 131072 + cr.dig_P4 * 34359738368
  let var1 := ((var1 * var1 * cr.dig_P3) >>> 8) + (var1 * cr.dig_P2) * 4096
  let var1 := ((140737488355328 + var1) * cr.dig_P1) >>> 33
  if var1 = 0 then
    pressureSentinel
  else
    let p := (1048576 : Int) - (adc_p : Int)
    let p := Int.tdiv ((p * 2147483648 - var2) * 3125) var1
    let var1 := (cr.dig_P9 * ((p >>> 13) * (p >>> 13))) >>> 25
    let var2 := (cr.dig_P8 * p) >>> 19
    ((p + var1 + var2) >>> 8) + cr.dig_P7 * 16

/-- Modelled from the spec: humidity compensation of the `calibration`
module (not under `src/`), the datasheet's fixed-point path producing a
value scaled by 2^10 and clamped to the valid range 0..102400 after
computation. -/
def CalibrationRegisters.compensate_humidity (cr : CalibrationRegisters) (adc_h : Nat)
    (t_fine : Int) : Int :=
  let v := t_fine - 76800
  let v := ((((adc_h : Int) * 16384 - cr.dig_H4 * 1048576 - cr.dig_H5 * v + 16384) >>> 15) *
      ((((((v * cr.dig_H6) >>> 10) * (((v * cr.dig_H3) >>> 11) + 32768)) >>> 10 + 2097152) *
          cr.dig_H2 + 8192) >>> 14))
  let v := v - (((((v >>> 15) * (v >>> 15)) >>> 7) * cr.dig_H1) >>> 4)
  min 102400 (max 0 (v >>> 12))

/-- The decoded reading of the compensation-based driver
(`BME280Response` at the crate root, not under `src/`): `f32` fields
modelled as exact rationals. -/
structure BME280Response where
  temperature : ℚ
  humidity : ℚ
  pressure : ℚ
deriving DecidableEq, Repr

/-- Embeds the `BME280Sensor` struct: the bus handle is the scripted
transport, the slave address, and the optionally populated calibration
store. -/
structure BME280Sensor where
  address : Nat
  calibration_registers : Option CalibrationRegisters
deriving DecidableEq, Repr

/-- Embeds `BME280Sensor::new`: a fresh driver holds no calibration
coefficients. -/
def BME280Sensor.new (addr : Nat) : BME280Sensor :=
  { address := addr, calibration_registers := none }

/-- The 20-bit raw pressure sample unpacked from the 8-byte data buffer
(bytes 0, 1, 2), as in `read`: `data_msb | data_lsb | data_xlsb`. -/
def rawPressure (data : List Nat) : Nat :=
  ((data.getD 0 0) <<< 12) ||| ((data.getD 1 0) <<< 4) ||| ((data.getD 2 0) >>> 4)

/-- The 20-bit raw temperature sample unpacked from the 8-byte data
buffer (bytes 3, 4, 5), as in `read`. -/
def rawTemperature (data : List Nat) : Nat :=
  ((data.getD 3 0) <<< 12) ||| ((data.getD 4 0) <<< 4) ||| ((data.getD 5 0) >>> 4)

/-- The 16-bit raw humidity sample unpacked from the 8-byte data buffer
(bytes 6, 7), as in `read`. -/
def rawHumidity (data : List Nat) : Nat :=
  ((data.getD 6 0) <<< 8) ||| (data.getD 7 0)

/-- The kinds of compensation `read` applies. -/
inductive Compensation where
  | temperature
  | humidity
  | pressure
deriving DecidableEq, Repr

/-- The order in which the source of `read` applies the compensation
functions (the sequence of the three `let` bindings calling
`compensate_temperature`, `compensate_humidity`, `compensate_pressure`
on lines 125, 127 and 128 of `src/scd41_rp.rs`). -/
def readCompensationOrder : List Compensation :=
  [Compensation.temperature, Compensation.humidity, Compensation.pressure]

/-- Embeds `BME280Sensor::read`: one 8-byte burst read starting at the
pressure-data register, raw-sample unpacking, then the compensation
pipeline when calibration coefficients are stored, else
`NotCalibrated`.  `read` never mutates the driver state; the returned
sensor is the unchanged input, matching the absence of any field
assignment in the source. -/
def BME280Sensor.read (s : BME280Sensor) (bus : List BusResp) :
    Except BME280Error BME280Response × BME280Sensor × List I2CTxn :=
  let r := read_registers_bulk s.address BME280_REGISTER_DATA_START BME280_REGISTER_DATA_LENGTH bus
  match r.1 with
  | Except.error e => (Except.error e, s, r.2.2)
  | Except.ok data =>
    let adc_p := rawPressure data
    let adc_t : Int := (rawTemperature data : Int)
    let adc_h := rawHumidity data
    match s.calibration_registers with
    | some cr =>
      let t_fine := cr.compensate_temperature adc_t
      let temperature : ℚ := ((((t_fine * 5 + 128) >>> 8 : Int) : ℚ)) / 100
      let humidity : ℚ := ((cr.compensate_humidity adc_h t_fine : Int) : ℚ) / 1024
      let pressure : ℚ := ((cr.compensate_pressure adc_p t_fine : Int) : ℚ) / 256
      (Except.ok { temperature := temperature, humidity := humidity, pressure := pressure },
        s, r.2.2)
    | none => (Except.error BME280Error.NotCalibrated, s, r.2.2)

/-- Modelled from the spec: the `SensorMode` enum of the crate's
`configuration` module (not under `src/`): the global operating mode
with its register encoding (`SensorMode::Sleep as u8` is 0). -/
inductive SensorMode where
  | Sleep
  | Forced
  | Normal
deriving DecidableEq, Repr

/-- Modelled from the spec: the register encoding of `SensorMode`
(`as u8` in the source). -/
def SensorMode.toU8 : SensorMode → Nat
  | SensorMode.Sleep => 0
  | SensorMode.Forced => 1
  | SensorMode.Normal => 3

/-- Modelled from the spec: the three register values
`SamplingConfiguration::to_low_level_configuration` produces (the
`configuration` module is not under `src/`, so `setup` and
`set_sampling_configuration` take the translated triple directly). -/
structure LowLevelConfiguration where
  config : Nat
  ctrl_meas : Nat
  ctrl_hum : Nat
deriving DecidableEq, Repr

/-- Embeds `BME280Sensor::set_sampling_configuration`: writes, in
order, Sleep to the measurement-control register, then the
humidity-control value, then the config value, then the
measurement-control value, stopping at the first transport failure. -/
def set_sampling_configuration (addr : Nat) (cfg : LowLevelConfiguration)
    (bus : List BusResp) : Except BME280Error Unit × List BusResp × List I2CTxn :=
  let r1 := write_register_8u addr BME280_REGISTER_CONTROL SensorMode.Sleep.toU8 bus
  match r1.1 with
  | Except.error e => (Except.error e, r1.2.1, r1.2.2)
  | Except.ok _ =>
    let r2 := write_register_8u addr BME280_REGISTER_CONTROLHUMID cfg.ctrl_hum r1.2.1
    match r2.1 with
    | Except.error e => (Except.error e, r2.2.1, r1.2.2 ++ r2.2.2)
    | Except.ok _ =>
      let r3 := write_register_8u addr BME280_REGISTER_CONFIG cfg.config r2.2.1
      match r3.1 with
      | Except.error e => (Except.error e, r3.2.1, r1.2.2 ++ r2.2.2 ++ r3.2.2)
      | Except.ok _ =>
        let r4 := write_register_8u addr BME280_REGISTER_CONTROL cfg.ctrl_meas r3.2.1
        match r4.1 with
        | Except.error e => (Except.error e, r4.2.1, r1.2.2 ++ r2.2.2 ++ r3.2.2 ++ r4.2.2)
        | Except.ok _ => (Except.ok (), r4.2.1, r1.2.2 ++ r2.2.2 ++ r3.2.2 ++ r4.2.2)

/-- Embeds `BME280Sensor::is_reading_calibration`: reads the status
register and tests bit 3. -/
def is_reading_calibration (addr : Nat) (bus : List BusResp) :
    Except BME280Error Bool × List BusResp × List I2CTxn :=
  let r := read_register_u8 addr BME280_REGISTER_STATUS bus
  (r.1.map (fun status => status &&& (1 <<< 3) ≠ 0), r.2.1, r.2.2)

/-- Embeds the calibration-busy polling loop of `BME280Sensor::setup`
(the body of the `with_timeout` block): re-check the busy flag while it
reads true, break out of the loop as soon as it reads false or the
status read fails with a transport error.  The wall-clock 1-second
timeout is modelled by the fuel bound: the returned flag is `true` iff
the fuel ran out before the loop broke, which is the timeout case. -/
def pollCalibration (addr : Nat) : Nat → List BusResp → Bool × List BusResp × List I2CTxn
  | 0, bus => (true, bus, [])
  | fuel + 1, bus =>
    let r := is_reading_calibration addr bus
    match r.1 with
    | Except.error _ => (false, r.2.1, r.2.2)
    | Except.ok reading =>
      if reading then
        let rest := pollCalibration addr fuel r.2.1
        (rest.1, rest.2.1, r.2.2 ++ rest.2.2)
      else
        (false, r.2.1, r.2.2)

/-- Embeds `BME280Sensor::read_coefficients`: two burst reads (26 bytes
at 0x88, 7 bytes at 0xE1) into one buffer, then — only after both have
succeeded — the parsed table is stored in `calibration_registers`. -/
def BME280Sensor.read_coefficients (s : BME280Sensor) (bus : List BusResp) :
    Except BME280Error Unit × BME280Sensor × List BusResp × List I2CTxn :=
  let r1 := read_registers_bulk s.address 0x88 BME280_REGISTER_DIG_FIRST_LENGTH bus
  match r1.1 with
  | Except.error e => (Except.error e, s, r1.2.1, r1.2.2)
  | Except.ok d1 =>
    let r2 := read_registers_bulk s.address 0xE1 BME280_REGISTER_DIG_SECOND_LENGTH r1.2.1
    match r2.1 with
    | Except.error e => (Except.error e, s, r2.2.1, r1.2.2 ++ r2.2.2)
    | Except.ok d2 =>
      (Except.ok (),
        { s with calibration_registers := some (CalibrationRegisters.fromBytes (d1 ++ d2)) },
        r2.2.1, r1.2.2 ++ r2.2.2)

/-- Embeds `BME280Sensor::setup`: chip-identity check, soft reset,
bounded calibration-busy polling (fuel models the 1-second wall-clock
timeout), coefficient reads, sampling configuration.  Returns the
result, the driver state after the call, and the trace of issued
transactions. -/
def BME280Sensor.setup (s : BME280Sensor) (cfg : LowLevelConfiguration) (fuel : Nat)
    (bus : List BusResp) : Except BME280Error Unit × BME280Sensor × List I2CTxn :=
  let r1 := read_register_u8 s.address BME280_REGISTER_CHIPID bus
  match r1.1 with
  | Except.error e => (Except.error e, s, r1.2.2)
  | Except.ok chip_id =>
    if chip_id ≠ 0x60 then
      (Except.error (BME280Error.InvalidChipId chip_id), s, r1.2.2)
    else
      let r2 := write_register_8u s.address BME280_REGISTER_SOFTRESET 0x86 r1.2.1
      match r2.1 with
      | Except.error e => (Except.error e, s, r1.2.2 ++ r2.2.2)
      | Except.ok _ =>
        let r3 := pollCalibration s.address fuel r2.2.1
        if r3.1 then
          (Except.error BME280Error.Timeout, s, r1.2.2 ++ r2.2.2 ++ r3.2.2)
        else
          let r4 := s.read_coefficients r3.2.1
          match r4.1 with
          | Except.error e => (Except.error e, r4.2.1, r1.2.2 ++ r2.2.2 ++ r3.2.2 ++ r4.2.2.2)
          | Except.ok _ =>
            let r5 := set_sampling_configuration r4.2.1.address cfg r4.2.2.1
            match r5.1 with
            | Except.error e =>
                (Except.error e, r4.2.1, r1.2.2 ++ r2.2.2 ++ r3.2.2 ++ r4.2.2.2 ++ r5.2.2)
            | Except.ok _ =>
                (Except.ok (), r4.2.1, r1.2.2 ++ r2.2.2 ++ r3.2.2 ++ r4.2.2.2 ++ r5.2.2)

/-- The decoded reading of the CO2 driver (`SCD41Response` in
`src/lib.rs`): `f32` fields modelled as exact rationals. -/
structure SCD41Response where
  co2 : ℚ
  humidity : ℚ
  temperature : ℚ
deriving DecidableEq, Repr

/-- The error enum of the CO2 driver (`SCD41Error` in `src/lib.rs`). -/
inductive SCD41Error where
  | NoData
  | I2CError
  | Timeout
deriving DecidableEq, Repr

/-- Modelled from the spec: the closed set of acquisition states of the
CO2 driver's state machine (the driver's source file is not under
`src/`). -/
inductive AcquisitionState where
  | Initial
  | StopMeasurement
  | Reinit
  | StartMeasurement
  | ReadData
deriving DecidableEq, Repr

/-- Modelled from the spec: the state of the CO2 state-machine driver
(`SCD41Sensor`, source not under `src/`): the slave address, the active
acquisition state, the monotonic timestamp before which no new bus
transaction is attempted, and the cached last reading.  Time is in
milliseconds. -/
structure SCD41Sensor where
  address : Nat
  state : AcquisitionState
  next_eligible : Nat
  cached : Option SCD41Response
deriving DecidableEq, Repr

/-- Modelled from the spec: a freshly constructed CO2 driver starts in
the `Initial` state with no cached reading and is immediately
eligible. -/
def SCD41Sensor.new (addr : Nat) : SCD41Sensor :=
  { address := addr, state := AcquisitionState.Initial, next_eligible := 0, cached := none }

/-- Modelled from the spec: decoding the 9-byte measurement buffer —
three 3-byte words (two big-endian data bytes and a checksum byte) at
byte offsets 0-1, 3-4, 6-7 for CO2 (ppm, the direct 16-bit value),
temperature (-45 + 175 * raw / 65535) and humidity
(100 * raw / 65535). -/
def decodeMeasurement (m : List Nat) : SCD41Response :=
  let co2raw := ((m.getD 0 0) <<< 8) ||| (m.getD 1 0)
  let traw := ((m.getD 3 0) <<< 8) ||| (m.getD 4 0)
  let hraw := ((m.getD 6 0) <<< 8) ||| (m.getD 7 0)
  { co2 := (co2raw : ℚ)
    humidity := 100 * (hraw : ℚ) / 65535
    temperature := -45 + 175 * (traw : ℚ) / 65535 }

/-- Modelled from the spec: one non-blocking `read()` call of the CO2
state-machine driver.  Gate check first: before `next_eligible` the
cached reading (or `NoData`) is returned with no bus transaction.
Otherwise the active state's single command is issued: `Initial` is a
pure transition; `StopMeasurement`, `Reinit` and `StartMeasurement`
write their fixed two-byte commands and re-arm 1000 ms; `ReadData`
reads the 9-byte data-ready status (readiness is byte 1 of the
response) and either re-arms 1000 ms returning `NoData`, or reads and
decodes the 9-byte measurement, caches it and re-arms 5000 ms.  A
transport failure returns `I2CError` leaving state and `next_eligible`
unchanged. -/
def SCD41Sensor.read (s : SCD41Sensor) (now : Nat) (bus : List BusResp) :
    Except SCD41Error SCD41Response × SCD41Sensor × List I2CTxn :=
  if now < s.next_eligible then
    (match s.cached with
      | some r => Except.ok r
      | none => Except.error SCD41Error.NoData, s, [])
  else
    match s.state with
    | AcquisitionState.Initial =>
        (Except.error SCD41Error.NoData,
          { s with state := AcquisitionState.StopMeasurement, next_eligible := now + 1000 }, [])
    | AcquisitionState.StopMeasurement =>
        match bus with
        | Except.ok _ :: _ =>
            (Except.error SCD41Error.NoData,
              { s with state := AcquisitionState.Reinit, next_eligible := now + 1000 },
              [I2CTxn.write s.address [0x3f, 0x86]])
        | _ => (Except.error SCD41Error.I2CError, s, [I2CTxn.write s.address [0x3f, 0x86]])
    | AcquisitionState.Reinit =>
        match bus with
        | Except.ok _ :: _ =>
            (Except.error SCD41Error.NoData,
              { s with state := AcquisitionState.StartMeasurement, next_eligible := now + 1000 },
              [I2CTxn.write s.address [0x36, 0x46]])
        | _ => (Except.error SCD41Error.I2CError, s, [I2CTxn.write s.address [0x36, 0x46]])
    | AcquisitionState.StartMeasurement =>
        match bus with
        | Except.ok _ :: _ =>
            (Except.error SCD41Error.NoData,
              { s with state := AcquisitionState.ReadData, next_eligible := now + 1000 },
              [I2CTxn.write s.address [0x21, 0xb1]])
        | _ => (Except.error SCD41Error.I2CError, s, [I2CTxn.write s.address [0x21, 0xb1]])
    | AcquisitionState.ReadData =>
        match bus with
        | Except.ok st :: rest =>
            if (fillBuffer st 9).getD 1 0 ≠ 0 then
              match rest with
              | Except.ok m :: _ =>
                  let resp := decodeMeasurement (fillBuffer m 9)
                  (Except.ok resp,
                    { s with cached := some resp, next_eligible := now + 5000 },
                    [I2CTxn.writeRead s.address [0xe4, 0xb8] 9,
                      I2CTxn.writeRead s.address [0xec, 0x05] 9])
              | _ =>
                  (Except.error SCD41Error.I2CError, s,
                    [I2CTxn.writeRead s.address [0xe4, 0xb8] 9,
                      I2CTxn.writeRead s.address [0xec, 0x05] 9])
            else
              (Except.error SCD41Error.NoData, { s with next_eligible := now + 1000 },
                [I2CTxn.writeRead s.address [0xe4, 0xb8] 9])
        | _ =>
            (Except.error SCD41Error.I2CError, s, [I2CTxn.writeRead s.address [0xe4, 0xb8] 9])

/-- Runs a sequence of `read()` calls on the CO2 driver, one per list
entry giving the call's time and the scripted bus outcomes for that
call; collects each call's result and the acquisition state it leaves
behind. -/
def SCD41Sensor.runReads (s : SCD41Sensor) :
    List (Nat × List BusResp) → List (Except SCD41Error SCD41Response × AcquisitionState)
  | [] => []
  | (now, bus) :: rest =>
    let r := s.read now bus
    (r.1, r.2.1.state) :: r.2.1.runReads rest

/-- A filled read buffer always has exactly the requested length. -/
theorem fillBuffer_length (resp : List Nat) (len : Nat) : (fillBuffer resp len).length = len := by
  simp [fillBuffer]

/-- Splitting a bitwise or of a shifted value and a small value into a
sum. -/
theorem lor_split (k a b : Nat) (hb : b < 2 ^ k) : (a * 2 ^ k) ||| b = a * 2 ^ k + b := by
  rw [Nat.mul_comm a (2 ^ k)]
  exact (Nat.mul_add_lt_is_or hb a).symm

/-- The three-byte 20-bit unpacking used by `read` equals the plain
arithmetic combination of its bytes. -/
theorem unpack20_eq (a b c : Nat) (hb : b < 256) (hc : c < 256) :
    (a <<< 12) ||| (b <<< 4) ||| (c >>> 4) = 4096 * a + 16 * b + c / 16 := by
  rw [Nat.shiftLeft_eq, Nat.shiftLeft_eq, Nat.shiftRight_eq_div_pow]
  rw [lor_split 12 a (b * 2 ^ 4) (by omega)]
  have h2 : a * 2 ^ 12 + b * 2 ^ 4 = (a * 2 ^ 8 + b) * 2 ^ 4 := by ring
  rw [h2, lor_split 4 (a * 2 ^ 8 + b) (c / 2 ^ 4) (by omega)]
  have h4 : (2 : Nat) ^ 4 = 16 := by norm_num
  have h8 : (2 : Nat) ^ 8 = 256 := by norm_num
  rw [h4, h8]
  ring_nf

/-- The two-byte 16-bit unpacking used by `read` equals the plain
arithmetic combination of its bytes. -/
theorem unpack16_eq (a b : Nat) (hb : b < 256) :
    (a <<< 8) ||| b = 256 * a + b := by
  rw [Nat.shiftLeft_eq]
  rw [lor_split 8 a b (by omega)]
  omega

/-- C1 counterexample: with an uncalibrated driver and a failing
transport, `read()` returns `I2CError`, not `NotCalibrated`, so the
claim that every pre-setup call returns `NotCalibrated` fails on this
input. -/
theorem read_uncalibrated_transport_failure :
    ((BME280Sensor.new 0x76).read [Except.error ()]).1 = Except.error BME280Error.I2CError ∧
      BME280Error.I2CError ≠ BME280Error.NotCalibrated :=
  ⟨rfl, by simp⟩

/-- C1 (amended): while no calibration coefficients are stored, `read()`
returns `NotCalibrated` whenever the burst read succeeds, returns
`I2CError` whenever the transport fails (a failing or exhausted
script), and in no case produces a decoded `BME280Response`. -/
theorem read_before_setup_never_decodes (s : BME280Sensor) (bus : List BusResp)
    (h : s.calibration_registers = none) :
    (∀ bytes rest, bus = Except.ok bytes :: rest →
        (s.read bus).1 = Except.error BME280Error.NotCalibrated) ∧
      (bus = [] ∨ (∃ rest, bus = Except.error () :: rest) →
        (s.read bus).1 = Except.error BME280Error.I2CError) ∧
      ∀ r, (s.read bus).1 ≠ Except.ok r := by
  match bus with
  | [] =>
    refine ⟨fun bytes rest habs => List.noConfusion habs, fun _ => rfl, fun r hr => ?_⟩
    simp [BME280Sensor.read, read_registers_bulk, i2c_write_read] at hr
  | Except.error _ :: rest =>
    refine ⟨fun bytes rest' habs => ?_, fun _ => rfl, fun r hr => ?_⟩
    · exact Except.noConfusion (List.cons.inj habs).1
    · simp [BME280Sensor.read, read_registers_bulk, i2c_write_read] at hr
  | Except.ok bytes :: rest =>
    refine ⟨fun bytes' rest' _ => ?_, fun habs => ?_, fun r hr => ?_⟩
    · simp [BME280Sensor.read, read_registers_bulk, i2c_write_read, h]
    · rcases habs with habs | ⟨rest', habs⟩
      · exact List.noConfusion habs
      · exact Except.noConfusion (List.cons.inj habs).1
    · simp [BME280Sensor.read, read_registers_bulk, i2c_write_read, h] at hr

/-- C1 witness: the amended statement at a concrete uncalibrated
driver — a successful burst read yields `NotCalibrated`, a failing
transport yields `I2CError`. -/
theorem read_before_setup_never_decodes_witness :
    ((BME280Sensor.new 0x76).read [Except.ok [1, 2, 3, 4, 5, 6, 7, 8]]).1 =
        Except.error BME280Error.NotCalibrated ∧
      ((BME280Sensor.new 0x76).read [Except.error ()]).1 =
        Except.error BME280Error.I2CError :=
  ⟨(read_before_setup_never_decodes (BME280Sensor.new 0x76)
        [Except.ok [1, 2, 3, 4, 5, 6, 7, 8]] rfl).1 [1, 2, 3, 4, 5, 6, 7, 8] [] rfl,
    (read_before_setup_never_decodes (BME280Sensor.new 0x76)
        [Except.error ()] rfl).2.1 (Or.inr ⟨[], rfl⟩)⟩

/-- C3: applying a sampling configuration performs exactly four register
writes, in order: the Sleep mode value to the measurement-control
register, then the humidity-control value, then the config value, and
last the measurement-control value. -/
theorem set_sampling_configuration_write_order (addr : Nat) (cfg : LowLevelConfiguration)
    (b1 b2 b3 b4 : List Nat) (rest : List BusResp) :
    (set_sampling_configuration addr cfg
          (Except.ok b1 :: Except.ok b2 :: Except.ok b3 :: Except.ok b4 :: rest)).2.2 =
        [I2CTxn.write addr [BME280_REGISTER_CONTROL, SensorMode.Sleep.toU8],
          I2CTxn.write addr [BME280_REGISTER_CONTROLHUMID, cfg.ctrl_hum],
          I2CTxn.write addr [BME280_REGISTER_CONFIG, cfg.config],
          I2CTxn.write addr [BME280_REGISTER_CONTROL, cfg.ctrl_meas]] ∧
      (set_sampling_configuration addr cfg
          (Except.ok b1 :: Except.ok b2 :: Except.ok b3 :: Except.ok b4 :: rest)).1 =
        Except.ok () :=
  ⟨rfl, rfl⟩

/-- C5: `read` issues exactly one bus transaction — an 8-byte burst
read starting at the pressure-data register — and the raw samples
unpacked from any 8-byte buffer are the 20-bit pressure value from
bytes 0-2 and the 20-bit temperature value from bytes 3-5, each
combined as MSB shifted left 12, or LSB shifted left 4, or XLSB shifted
right 4 (equivalently 4096*MSB + 16*LSB + XLSB/16, below 2^20), and the
16-bit humidity value 256*MSB + LSB from bytes 6-7. -/
theorem read_burst_and_unpacking (s : BME280Sensor) (bus : List BusResp)
    (b0 b1 b2 b3 b4 b5 b6 b7 : Nat) (h0 : b0 < 256) (h1 : b1 < 256) (h2 : b2 < 256)
    (h3 : b3 < 256) (h4 : b4 < 256) (h5 : b5 < 256) (h6 : b6 < 256) (h7 : b7 < 256) :
    (s.read bus).2.2 =
        [I2CTxn.writeRead s.address [BME280_REGISTER_DATA_START] BME280_REGISTER_DATA_LENGTH] ∧
      rawPressure [b0, b1, b2, b3, b4, b5, b6, b7] = (b0 <<< 12) ||| (b1 <<< 4) ||| (b2 >>> 4) ∧
      rawPressure [b0, b1, b2, b3, b4, b5, b6, b7] = 4096 * b0 + 16 * b1 + b2 / 16 ∧
      rawPressure [b0, b1, b2, b3, b4, b5, b6, b7] < 2 ^ 20 ∧
      rawTemperature [b0, b1, b2, b3, b4, b5, b6, b7] =
        (b3 <<< 12) ||| (b4 <<< 4) ||| (b5 >>> 4) ∧
      rawTemperature [b0, b1, b2, b3, b4, b5, b6, b7] = 4096 * b3 + 16 * b4 + b5 / 16 ∧
      rawTemperature [b0, b1, b2, b3, b4, b5, b6, b7] < 2 ^ 20 ∧
      rawHumidity [b0, b1, b2, b3, b4, b5, b6, b7] = (b6 <<< 8) ||| b7 ∧
      rawHumidity [b0, b1, b2, b3, b4, b5, b6, b7] = 256 * b6 + b7 ∧
      rawHumidity [b0, b1, b2, b3, b4, b5, b6, b7] < 2 ^ 16 := by
  refine ⟨?_, rfl, ?_, ?_, rfl, ?_, ?_, rfl, ?_, ?_⟩
  · match bus with
    | [] => rfl
    | Except.error _ :: rest => rfl
    | Except.ok bytes :: rest =>
      cases hcr : s.calibration_registers <;>
        simp [BME280Sensor.read, read_registers_bulk, i2c_write_read, hcr]
  · exact unpack20_eq b0 b1 b2 h1 h2
  · rw [show rawPressure [b0, b1, b2, b3, b4, b5, b6, b7] =
      (b0 <<< 12) ||| (b1 <<< 4) ||| (b2 >>> 4) from rfl, unpack20_eq b0 b1 b2 h1 h2]
    omega
  · exact unpack20_eq b3 b4 b5 h4 h5
  · rw [show rawTemperature [b0, b1, b2, b3, b4, b5, b6, b7] =
      (b3 <<< 12) ||| (b4 <<< 4) ||| (b5 >>> 4) from rfl, unpack20_eq b3 b4 b5 h4 h5]
    omega
  · exact unpack16_eq b6 b7 h7
  · rw [show rawHumidity [b0, b1, b2, b3, b4, b5, b6, b7] = (b6 <<< 8) ||| b7 from rfl,
      unpack16_eq b6 b7 h7]
    omega

/-- C5 witness: the burst-read trace and unpacking formulas at a
concrete driver and buffer. -/
theorem read_burst_and_unpacking_witness :
    ((BME280Sensor.new 0x76).read [Except.ok [18, 52, 86, 120, 154, 188, 222, 240]]).2.2 =
        [I2CTxn.writeRead (BME280Sensor.new 0x76).address [BME280_REGISTER_DATA_START]
          BME280_REGISTER_DATA_LENGTH] ∧
      rawPressure [18, 52, 86, 120, 154, 188, 222, 240] =
        (18 <<< 12) ||| (52 <<< 4) ||| (86 >>> 4) ∧
      rawPressure [18, 52, 86, 120, 154, 188, 222, 240] = 4096 * 18 + 16 * 52 + 86 / 16 ∧
      rawPressure [18, 52, 86, 120, 154, 188, 222, 240] < 2 ^ 20 ∧
      rawTemperature [18, 52, 86, 120, 154, 188, 222, 240] =
        (120 <<< 12) ||| (154 <<< 4) ||| (188 >>> 4) ∧
      rawTemperature [18, 52, 86, 120, 154, 188, 222, 240] = 4096 * 120 + 16 * 154 + 188 / 16 ∧
      rawTemperature [18, 52, 86, 120, 154, 188, 222, 240] < 2 ^ 20 ∧
      rawHumidity [18, 52, 86, 120, 154, 188, 222, 240] = (222 <<< 8) ||| 240 ∧
      rawHumidity [18, 52, 86, 120, 154, 188, 222, 240] = 256 * 222 + 240 ∧
      rawHumidity [18, 52, 86, 120, 154, 188, 222, 240] < 2 ^ 16 :=
  read_burst_and_unpacking (BME280Sensor.new 0x76) [Except.ok [18, 52, 86, 120, 154, 188, 222, 240]]
    18 52 86 120 154 188 222 240 (by norm_num) (by norm_num) (by norm_num) (by norm_num)
    (by norm_num) (by norm_num) (by norm_num) (by norm_num)

/-- C6: for every calibrated read with a successful burst read, the
returned rational values are the fixed-point compensation outputs
divided by their scale factors — the temperature is
((t_fine * 5 + 128) >> 8) / 100 degrees Celsius, the humidity output
(scaled by 2^10) is divided by 1024, and the pressure output (scaled by
2^8) is divided by 256. -/
theorem read_scale_factors (addr : Nat) (cr : CalibrationRegisters) (data : List Nat) :
    (({ address := addr, calibration_registers := some cr } : BME280Sensor).read
        [Except.ok data]).1 =
      Except.ok
        { temperature :=
            (((cr.compensate_temperature (rawTemperature (fillBuffer data 8)) * 5 + 128) >>> 8 :
              Int) : ℚ) / 100
          humidity :=
            ((cr.compensate_humidity (rawHumidity (fillBuffer data 8))
              (cr.compensate_temperature (rawTemperature (fillBuffer data 8))) : Int) : ℚ) / 1024
          pressure :=
            ((cr.compensate_pressure (rawPressure (fillBuffer data 8))
              (cr.compensate_temperature (rawTemperature (fillBuffer data 8))) : Int) : ℚ) /
              256 } :=
  rfl

/-- C7 counterexample: the source of `read` applies humidity
compensation before pressure compensation, so the claimed application
order temperature, pressure, humidity is not the code's order. -/
theorem readCompensationOrder_not_pressure_first :
    readCompensationOrder ≠
      [Compensation.temperature, Compensation.pressure, Compensation.humidity] := by
  simp [readCompensationOrder]

/-- C7 (amended): in every calibrated read, temperature compensation is
applied first and its t_fine intermediate is passed as an explicit
argument to both the pressure compensation and the humidity
compensation; the compensations are applied in the order temperature,
then humidity, then pressure. -/
theorem read_tfine_threading (addr : Nat) (cr : CalibrationRegisters) (data : List Nat) :
    readCompensationOrder =
        [Compensation.temperature, Compensation.humidity, Compensation.pressure] ∧
      ∃ t_fine, t_fine = cr.compensate_temperature (rawTemperature (fillBuffer data 8)) ∧
        (({ address := addr, calibration_registers := some cr } : BME280Sensor).read
            [Except.ok data]).1 =
          Except.ok
            { temperature := (((t_fine * 5 + 128) >>> 8 : Int) : ℚ) / 100
              humidity :=
                ((cr.compensate_humidity (rawHumidity (fillBuffer data 8)) t_fine : Int) : ℚ) /
                  1024
              pressure :=
                ((cr.compensate_pressure (rawPressure (fillBuffer data 8)) t_fine : Int) : ℚ) /
                  256 } :=
  ⟨rfl, cr.compensate_temperature (rawTemperature (fillBuffer data 8)), rfl, rfl⟩

/-- `read_coefficients` either fails with `I2CError` leaving the driver
unchanged, or succeeds and stores the table parsed from the two
successfully read blocks (26 and 7 bytes). -/
theorem read_coefficients_state (s : BME280Sensor) (bus : List BusResp) :
    ((s.read_coefficients bus).1 = Except.error BME280Error.I2CError ∧
        (s.read_coefficients bus).2.1 = s) ∨
      ∃ d1 d2, d1.length = 26 ∧ d2.length = 7 ∧
        (s.read_coefficients bus).1 = Except.ok () ∧
        (s.read_coefficients bus).2.1 =
          { s with calibration_registers := some (CalibrationRegisters.fromBytes (d1 ++ d2)) } := by
  match bus with
  | [] => exact Or.inl ⟨rfl, rfl⟩
  | Except.error _ :: rest => exact Or.inl ⟨rfl, rfl⟩
  | Except.ok b1 :: rest =>
    match rest with
    | [] => exact Or.inl ⟨rfl, rfl⟩
    | Except.error _ :: rest2 => exact Or.inl ⟨rfl, rfl⟩
    | Except.ok b2 :: rest2 =>
      exact Or.inr ⟨fillBuffer b1 26, fillBuffer b2 7, fillBuffer_length b1 26,
        fillBuffer_length b2 7, rfl, rfl⟩

/-- Every failure of `read_coefficients` is a transport failure
surfaced as `I2CError`. -/
theorem read_coefficients_err (s : BME280Sensor) (bus : List BusResp) (e : BME280Error)
    (h : (s.read_coefficients bus).1 = Except.error e) : e = BME280Error.I2CError := by
  rcases read_coefficients_state s bus with ⟨h1, _⟩ | ⟨d1, d2, _, _, hok, _⟩
  · rw [h1] at h
    exact (Except.error.inj h).symm
  · rw [hok] at h
    exact Except.noConfusion h

/-- Every failure of `set_sampling_configuration` is a transport
failure surfaced as `I2CError`. -/
theorem set_sampling_configuration_err (addr : Nat) (cfg : LowLevelConfiguration)
    (bus : List BusResp) (e : BME280Error)
    (h : (set_sampling_configuration addr cfg bus).1 = Except.error e) :
    e = BME280Error.I2CError := by
  match bus with
  | [] => exact (Except.error.inj h).symm
  | Except.error _ :: r => exact (Except.error.inj h).symm
  | Except.ok _ :: [] => exact (Except.error.inj h).symm
  | Except.ok _ :: Except.error _ :: r => exact (Except.error.inj h).symm
  | Except.ok _ :: Except.ok _ :: [] => exact (Except.error.inj h).symm
  | Except.ok _ :: Except.ok _ :: Except.error _ :: r => exact (Except.error.inj h).symm
  | Except.ok _ :: Except.ok _ :: Except.ok _ :: [] => exact (Except.error.inj h).symm
  | Except.ok _ :: Except.ok _ :: Except.ok _ :: Except.error _ :: r =>
    exact (Except.error.inj h).symm
  | Except.ok _ :: Except.ok _ :: Except.ok _ :: Except.ok _ :: r => exact Except.noConfusion h

/-- After any `setup` call the driver state is either unchanged or has
the coefficient table parsed from the two successfully read blocks. -/
theorem setup_state_cases (s : BME280Sensor) (cfg : LowLevelConfiguration) (fuel : Nat)
    (bus : List BusResp) :
    (s.setup cfg fuel bus).2.1 = s ∨
      ∃ d1 d2, d1.length = 26 ∧ d2.length = 7 ∧
        (s.setup cfg fuel bus).2.1 =
          { s with calibration_registers := some (CalibrationRegisters.fromBytes (d1 ++ d2)) } := by
  simp only [BME280Sensor.setup]
  split
  · exact Or.inl rfl
  · split
    · exact Or.inl rfl
    · split
      · exact Or.inl rfl
      · split
        · exact Or.inl rfl
        · rcases read_coefficients_state s
              (pollCalibration s.address fuel
                (write_register_8u s.address BME280_REGISTER_SOFTRESET 0x86
                  (read_register_u8 s.address BME280_REGISTER_CHIPID bus).2.1).2.1).2.1 with
            ⟨herr, hst⟩ | ⟨d1, d2, hl1, hl2, hok, hst⟩
          · split
            · exact Or.inl hst
            · rename_i hok2
              rw [herr] at hok2
              exact Except.noConfusion hok2
          · split
            · rename_i herr2
              rw [hok] at herr2
              exact Except.noConfusion herr2
            · split
              · exact Or.inr ⟨d1, d2, hl1, hl2, hst⟩
              · exact Or.inr ⟨d1, d2, hl1, hl2, hst⟩

/-- C10: once the driver holds calibration coefficients the fact is
preserved — `read()` returns the driver state unchanged whatever the
transport does, and after any `setup()` call (any outcome, any bus
behaviour) the coefficient field is still populated: no error path
returns the driver to the uncalibrated state. -/
theorem calibration_once_held_is_kept (s : BME280Sensor) (bus bus2 : List BusResp)
    (cfg : LowLevelConfiguration) (fuel : Nat) (c : CalibrationRegisters)
    (h : s.calibration_registers = some c) :
    (s.read bus).2.1 = s ∧
      (s.setup cfg fuel bus2).2.1.calibration_registers.isSome = true := by
  constructor
  · match bus with
    | [] => rfl
    | Except.error _ :: rest => rfl
    | Except.ok bytes :: rest =>
      simp only [BME280Sensor.read, read_registers_bulk, i2c_write_read]
      rw [h]
  · rcases setup_state_cases s cfg fuel bus2 with hst | ⟨d1, d2, _, _, hst⟩
    · rw [hst, h]
      rfl
    · rw [hst]
      rfl

/-- C10 witness: a calibrated driver stays calibrated through a failing
read and a failing setup. -/
theorem calibration_once_held_is_kept_witness :
    (({ address := 0x76, calibration_registers :=
          some (CalibrationRegisters.fromBytes (List.replicate 33 0)) } : BME280Sensor).read
        [Except.error ()]).2.1 =
        ({ address := 0x76, calibration_registers :=
          some (CalibrationRegisters.fromBytes (List.replicate 33 0)) } : BME280Sensor) ∧
      (({ address := 0x76, calibration_registers :=
          some (CalibrationRegisters.fromBytes (List.replicate 33 0)) } : BME280Sensor).setup
          { config := 0, ctrl_meas := 0, ctrl_hum := 0 } 3
          [Except.error ()]).2.1.calibration_registers.isSome = true :=
  calibration_once_held_is_kept _ [Except.error ()] [Except.error ()]
    { config := 0, ctrl_meas := 0, ctrl_hum := 0 } 3
    (CalibrationRegisters.fromBytes (List.replicate 33 0)) rfl

/-- C9 counterexample: with a bus that succeeds up to and including
both coefficient burst reads and then fails the first
sampling-configuration write, `setup()` returns an error while the
coefficient field of the initially unpopulated driver has been
assigned — the stored coefficient state is not unchanged on this error
return. -/
theorem setup_error_with_coefficients_assigned :
    ((BME280Sensor.new 0x76).setup { config := 0, ctrl_meas := 0, ctrl_hum := 0 } 3
          [Except.ok [0x60], Except.ok [], Except.ok [0], Except.ok (List.replicate 26 1),
            Except.ok (List.replicate 7 1), Except.error ()]).1 =
        Except.error BME280Error.I2CError ∧
      ((BME280Sensor.new 0x76).setup { config := 0, ctrl_meas := 0, ctrl_hum := 0 } 3
          [Except.ok [0x60], Except.ok [], Except.ok [0], Except.ok (List.replicate 26 1),
            Except.ok (List.replicate 7 1), Except.error ()]).2.1.calibration_registers ≠
        none ∧
      (BME280Sensor.new 0x76).calibration_registers = none :=
  ⟨rfl, by decide, rfl⟩

/-- A one-byte register read issues exactly one write-then-read
transaction whatever the transport does. -/
theorem read_register_u8_trace (addr reg : Nat) (bus : List BusResp) :
    (read_register_u8 addr reg bus).2.2 = [I2CTxn.writeRead addr [reg] 1] := by
  match bus with
  | [] => rfl
  | Except.error _ :: r => rfl
  | Except.ok _ :: r => rfl

/-- A bulk register read issues exactly one write-then-read
transaction whatever the transport does. -/
theorem read_registers_bulk_trace (addr reg len : Nat) (bus : List BusResp) :
    (read_registers_bulk addr reg len bus).2.2 = [I2CTxn.writeRead addr [reg] len] := by
  match bus with
  | [] => rfl
  | Except.error _ :: r => rfl
  | Except.ok _ :: r => rfl

/-- A single register write issues exactly one write transaction
whatever the transport does. -/
theorem write_register_8u_trace (addr reg data : Nat) (bus : List BusResp) :
    (write_register_8u addr reg data bus).2.2 = [I2CTxn.write addr [reg, data]] := by
  match bus with
  | [] => rfl
  | Except.error _ :: r => rfl
  | Except.ok _ :: r => rfl

/-- The busy-flag check issues exactly one status-register read. -/
theorem is_reading_calibration_trace (addr : Nat) (bus : List BusResp) :
    (is_reading_calibration addr bus).2.2 =
      [I2CTxn.writeRead addr [BME280_REGISTER_STATUS] 1] :=
  read_register_u8_trace addr BME280_REGISTER_STATUS bus

/-- Every transaction the calibration-busy polling loop issues is a
status-register read. -/
theorem pollCalibration_trace_only_status (addr fuel : Nat) (bus : List BusResp)
    (t : I2CTxn) (ht : t ∈ (pollCalibration addr fuel bus).2.2) :
    t = I2CTxn.writeRead addr [BME280_REGISTER_STATUS] 1 := by
  induction fuel generalizing bus with
  | zero => simp [pollCalibration] at ht
  | succ n ih =>
    simp only [pollCalibration] at ht
    split at ht
    · simp only [is_reading_calibration_trace, List.mem_singleton] at ht
      exact ht
    · split at ht
      · simp only [is_reading_calibration_trace, List.mem_append, List.mem_singleton] at ht
        rcases ht with h1 | h2
        · exact h1
        · exact ih _ h2
      · simp only [is_reading_calibration_trace, List.mem_singleton] at ht
        exact ht

/-- Every transaction `read_coefficients` issues is one of the two
calibration-block burst reads. -/
theorem read_coefficients_trace_shape (s : BME280Sensor) (bus : List BusResp) (t : I2CTxn)
    (ht : t ∈ (s.read_coefficients bus).2.2.2) :
    t = I2CTxn.writeRead s.address [0x88] BME280_REGISTER_DIG_FIRST_LENGTH ∨
      t = I2CTxn.writeRead s.address [0xE1] BME280_REGISTER_DIG_SECOND_LENGTH := by
  simp only [BME280Sensor.read_coefficients] at ht
  split at ht
  · rw [read_registers_bulk_trace] at ht
    exact Or.inl (List.mem_singleton.mp ht)
  · split at ht
    · rw [read_registers_bulk_trace, read_registers_bulk_trace] at ht
      rcases List.mem_append.mp ht with h | h
      · exact Or.inl (List.mem_singleton.mp h)
      · exact Or.inr (List.mem_singleton.mp h)
    · rw [read_registers_bulk_trace, read_registers_bulk_trace] at ht
      rcases List.mem_append.mp ht with h | h
      · exact Or.inl (List.mem_singleton.mp h)
      · exact Or.inr (List.mem_singleton.mp h)

/-- Whatever the transport does, the first transaction
`set_sampling_configuration` issues is the Sleep write to the
measurement-control register. -/
theorem set_sampling_configuration_trace_head (addr : Nat) (cfg : LowLevelConfiguration)
    (bus : List BusResp) :
    I2CTxn.write addr [BME280_REGISTER_CONTROL, SensorMode.Sleep.toU8] ∈
      (set_sampling_configuration addr cfg bus).2.2 := by
  match bus with
  | [] => exact List.mem_cons_self _ _
  | Except.error _ :: r => exact List.mem_cons_self _ _
  | Except.ok _ :: [] => exact List.mem_cons_self _ _
  | Except.ok _ :: Except.error _ :: r => exact List.mem_cons_self _ _
  | Except.ok _ :: Except.ok _ :: [] => exact List.mem_cons_self _ _
  | Except.ok _ :: Except.ok _ :: Except.error _ :: r => exact List.mem_cons_self _ _
  | Except.ok _ :: Except.ok _ :: Except.ok _ :: [] => exact List.mem_cons_self _ _
  | Except.ok _ :: Except.ok _ :: Except.ok _ :: Except.error _ :: r =>
    exact List.mem_cons_self _ _
  | Except.ok _ :: Except.ok _ :: Except.ok _ :: Except.ok _ :: r =>
    exact List.mem_cons_self _ _

/-- C9 (amended): the failure position is witnessed by the transaction
trace — the sampling-configuration step is reached exactly when its
first write (Sleep to the measurement-control register) was issued.
Whenever `setup()` returns an error without having issued that write
(the failure came from the identity check, the soft reset, the polling
timeout or a coefficient burst read), the previously stored coefficient
state, including the initial unpopulated state of a fresh instance, is
unchanged.  Whenever `setup()` returns an error having issued that
write, both burst reads had already succeeded — the coefficient field
is assigned only after both succeed — the error is the `I2CError` of
the sampling-configuration step, and the freshly parsed 26+7-byte table
remains stored. -/
theorem setup_coefficient_atomicity (s : BME280Sensor) (cfg : LowLevelConfiguration)
    (fuel : Nat) (bus : List BusResp) (e : BME280Error)
    (h : (s.setup cfg fuel bus).1 = Except.error e) :
    (I2CTxn.write s.address [BME280_REGISTER_CONTROL, SensorMode.Sleep.toU8] ∉
          (s.setup cfg fuel bus).2.2 →
        (s.setup cfg fuel bus).2.1 = s) ∧
      (I2CTxn.write s.address [BME280_REGISTER_CONTROL, SensorMode.Sleep.toU8] ∈
          (s.setup cfg fuel bus).2.2 →
        e = BME280Error.I2CError ∧ ∃ d1 d2, d1.length = 26 ∧ d2.length = 7 ∧
          (s.setup cfg fuel bus).2.1 =
            { s with
                calibration_registers := some (CalibrationRegisters.fromBytes (d1 ++ d2)) }) := by
  revert h
  simp only [BME280Sensor.setup]
  split
  · intro h
    refine ⟨fun _ => rfl, fun hmem => absurd hmem ?_⟩
    rw [read_register_u8_trace]
    simp
  · split
    · intro h
      refine ⟨fun _ => rfl, fun hmem => absurd hmem ?_⟩
      rw [read_register_u8_trace]
      simp
    · split
      · intro h
        refine ⟨fun _ => rfl, fun hmem => absurd hmem ?_⟩
        intro hmem
        rw [read_register_u8_trace, write_register_8u_trace] at hmem
        rcases List.mem_append.mp hmem with h1 | h2
        · simp at h1
        · simp [BME280_REGISTER_CONTROL, BME280_REGISTER_SOFTRESET, SensorMode.toU8] at h2
      · split
        · intro h
          refine ⟨fun _ => rfl, fun hmem => absurd hmem ?_⟩
          intro hmem
          rw [read_register_u8_trace, write_register_8u_trace] at hmem
          rcases List.mem_append.mp hmem with h12 | h3
          · rcases List.mem_append.mp h12 with h1 | h2
            · simp at h1
            · simp [BME280_REGISTER_CONTROL, BME280_REGISTER_SOFTRESET, SensorMode.toU8] at h2
          · exact I2CTxn.noConfusion (pollCalibration_trace_only_status _ _ _ _ h3)
        · rcases read_coefficients_state s
              (pollCalibration s.address fuel
                (write_register_8u s.address BME280_REGISTER_SOFTRESET 0x86
                  (read_register_u8 s.address BME280_REGISTER_CHIPID bus).2.1).2.1).2.1 with
            ⟨herr, hst⟩ | ⟨d1, d2, hl1, hl2, hok, hst⟩
          · split
            · intro h
              refine ⟨fun _ => hst, fun hmem => absurd hmem ?_⟩
              intro hmem
              rw [read_register_u8_trace, write_register_8u_trace] at hmem
              rcases List.mem_append.mp hmem with h123 | h4
              · rcases List.mem_append.mp h123 with h12 | h3
                · rcases List.mem_append.mp h12 with h1 | h2
                  · simp at h1
                  · simp [BME280_REGISTER_CONTROL, BME280_REGISTER_SOFTRESET,
                      SensorMode.toU8] at h2
                · exact I2CTxn.noConfusion (pollCalibration_trace_only_status _ _ _ _ h3)
              · rcases read_coefficients_trace_shape _ _ _ h4 with hsh | hsh
                · exact I2CTxn.noConfusion hsh
                · exact I2CTxn.noConfusion hsh
            · rename_i hok2
              rw [herr] at hok2
              exact Except.noConfusion hok2
          · split
            · rename_i herr2
              rw [hok] at herr2
              exact Except.noConfusion herr2
            · split
              · rename_i e5 herr5
                intro h
                refine ⟨fun hnot => absurd ?_ hnot, fun _ => ⟨?_, d1, d2, hl1, hl2, hst⟩⟩
                · rw [hst]
                  exact List.mem_append.mpr
                    (Or.inr (set_sampling_configuration_trace_head _ cfg _))
                · have he5 := set_sampling_configuration_err _ cfg _ e5 herr5
                  have hee : e5 = e := Except.error.inj h
                  rw [← hee]
                  exact he5
              · exact fun h => Except.noConfusion h

/-- C9 witness: the amended statement at a concrete early transport
failure: no sampling-configuration write was issued and the driver
state is unchanged. -/
theorem setup_coefficient_atomicity_witness :
    ((BME280Sensor.new 0x76).setup { config := 0, ctrl_meas := 0, ctrl_hum := 0 } 3
        [Except.error ()]).2.1 = BME280Sensor.new 0x76 :=
  (setup_coefficient_atomicity (BME280Sensor.new 0x76)
      { config := 0, ctrl_meas := 0, ctrl_hum := 0 } 3 [Except.error ()]
      BME280Error.I2CError rfl).1 (by decide)

/-- C4: a transport failure while reading the status register during
the calibration-busy polling phase stops the loop at once — it is not a
timeout and is not retried, and the unconsumed bus script shows no
further status read — and `setup` then proceeds to the coefficient
reads exactly as when the device reports not-busy, completing
successfully; every other transaction's transport failure is
propagated as an error (`I2CError`) by `setup` or `read`. -/
theorem poll_transport_failure_is_lenient (addr fuel : Nat) (bus : List BusResp) :
    (pollCalibration addr (fuel + 1) (Except.error () :: bus)).1 = false ∧
      (pollCalibration addr (fuel + 1) (Except.error () :: bus)).2.1 = bus ∧
      (pollCalibration addr (fuel + 1) (Except.error () :: bus)).2.2 =
        [I2CTxn.writeRead addr [BME280_REGISTER_STATUS] 1] ∧
      ((BME280Sensor.new 0x76).setup { config := 0, ctrl_meas := 0, ctrl_hum := 0 } 3
          [Except.ok [0x60], Except.ok [], Except.error (), Except.ok (List.replicate 26 1),
            Except.ok (List.replicate 7 1), Except.ok [], Except.ok [], Except.ok [],
            Except.ok []]).1 = Except.ok () ∧
      ((BME280Sensor.new 0x76).setup { config := 0, ctrl_meas := 0, ctrl_hum := 0 } 3
          [Except.ok [0x60], Except.ok [], Except.error (), Except.ok (List.replicate 26 1),
            Except.ok (List.replicate 7 1), Except.ok [], Except.ok [], Except.ok [],
            Except.ok []]).2.2 =
        [I2CTxn.writeRead 0x76 [BME280_REGISTER_CHIPID] 1,
          I2CTxn.write 0x76 [BME280_REGISTER_SOFTRESET, 0x86],
          I2CTxn.writeRead 0x76 [BME280_REGISTER_STATUS] 1,
          I2CTxn.writeRead 0x76 [0x88] 26, I2CTxn.writeRead 0x76 [0xE1] 7,
          I2CTxn.write 0x76 [BME280_REGISTER_CONTROL, 0],
          I2CTxn.write 0x76 [BME280_REGISTER_CONTROLHUMID, 0],
          I2CTxn.write 0x76 [BME280_REGISTER_CONFIG, 0],
          I2CTxn.write 0x76 [BME280_REGISTER_CONTROL, 0]] ∧
      ((BME280Sensor.new 0x76).setup { config := 0, ctrl_meas := 0, ctrl_hum := 0 } 3
          [Except.error ()]).1 = Except.error BME280Error.I2CError ∧
      ((BME280Sensor.new 0x76).setup { config := 0, ctrl_meas := 0, ctrl_hum := 0 } 3
          [Except.ok [0x60], Except.error ()]).1 = Except.error BME280Error.I2CError ∧
      ((BME280Sensor.new 0x76).setup { config := 0, ctrl_meas := 0, ctrl_hum := 0 } 3
          [Except.ok [0x60], Except.ok [], Except.ok [0], Except.error ()]).1 =
        Except.error BME280Error.I2CError ∧
      ((BME280Sensor.new 0x76).setup { config := 0, ctrl_meas := 0, ctrl_hum := 0 } 3
          [Except.ok [0x60], Except.ok [], Except.ok [0], Except.ok (List.replicate 26 1),
            Except.error ()]).1 = Except.error BME280Error.I2CError ∧
      ((BME280Sensor.new 0x76).setup { config := 0, ctrl_meas := 0, ctrl_hum := 0 } 3
          [Except.ok [0x60], Except.ok [], Except.ok [0], Except.ok (List.replicate 26 1),
            Except.ok (List.replicate 7 1), Except.error ()]).1 =
        Except.error BME280Error.I2CError ∧
      ((BME280Sensor.new 0x76).setup { config := 0, ctrl_meas := 0, ctrl_hum := 0 } 3
          [Except.ok [0x60], Except.ok [], Except.ok [0], Except.ok (List.replicate 26 1),
            Except.ok (List.replicate 7 1), Except.ok [], Except.error ()]).1 =
        Except.error BME280Error.I2CError ∧
      ((BME280Sensor.new 0x76).setup { config := 0, ctrl_meas := 0, ctrl_hum := 0 } 3
          [Except.ok [0x60], Except.ok [], Except.ok [0], Except.ok (List.replicate 26 1),
            Except.ok (List.replicate 7 1), Except.ok [], Except.ok [], Except.error ()]).1 =
        Except.error BME280Error.I2CError ∧
      ((BME280Sensor.new 0x76).setup { config := 0, ctrl_meas := 0, ctrl_hum := 0 } 3
          [Except.ok [0x60], Except.ok [], Except.ok [0], Except.ok (List.replicate 26 1),
            Except.ok (List.replicate 7 1), Except.ok [], Except.ok [], Except.ok [],
            Except.error ()]).1 = Except.error BME280Error.I2CError ∧
      (((BME280Sensor.new 0x76).read [Except.error ()]).1 =
        Except.error BME280Error.I2CError) :=
  ⟨rfl, rfl, rfl, rfl, rfl, rfl, rfl, rfl, rfl, rfl, rfl, rfl, rfl, rfl⟩

/-- One eligible `read()` call in the `Initial` state: a pure
transition to `StopMeasurement`, no bus transaction, `NoData`. -/
theorem scd41_step_initial (addr ne : Nat) (c : Option SCD41Response) (now : Nat)
    (bus : List BusResp) (h : ne ≤ now) :
    ({ address := addr, state := AcquisitionState.Initial, next_eligible := ne,
        cached := c } : SCD41Sensor).read now bus =
      (Except.error SCD41Error.NoData,
        { address := addr, state := AcquisitionState.StopMeasurement,
          next_eligible := now + 1000, cached := c }, []) := by
  simp only [SCD41Sensor.read]
  rw [if_neg (Nat.not_lt.mpr h)]

/-- One eligible `read()` call in the `StopMeasurement` state with a
working transport: the stop command is written, the machine advances to
`Reinit`, `NoData`. -/
theorem scd41_step_stop (addr ne now : Nat) (c : Option SCD41Response) (b : List Nat)
    (rest : List BusResp) (h : ne ≤ now) :
    ({ address := addr, state := AcquisitionState.StopMeasurement, next_eligible := ne,
        cached := c } : SCD41Sensor).read now (Except.ok b :: rest) =
      (Except.error SCD41Error.NoData,
        { address := addr, state := AcquisitionState.Reinit,
          next_eligible := now + 1000, cached := c }, [I2CTxn.write addr [0x3f, 0x86]]) := by
  simp only [SCD41Sensor.read]
  rw [if_neg (Nat.not_lt.mpr h)]

/-- One eligible `read()` call in the `Reinit` state with a working
transport: the reinit command is written, the machine advances to
`StartMeasurement`, `NoData`. -/
theorem scd41_step_reinit (addr ne now : Nat) (c : Option SCD41Response) (b : List Nat)
    (rest : List BusResp) (h : ne ≤ now) :
    ({ address := addr, state := AcquisitionState.Reinit, next_eligible := ne,
        cached := c } : SCD41Sensor).read now (Except.ok b :: rest) =
      (Except.error SCD41Error.NoData,
        { address := addr, state := AcquisitionState.StartMeasurement,
          next_eligible := now + 1000, cached := c }, [I2CTxn.write addr [0x36, 0x46]]) := by
  simp only [SCD41Sensor.read]
  rw [if_neg (Nat.not_lt.mpr h)]

/-- One eligible `read()` call in the `StartMeasurement` state with a
working transport: the start command is written, the machine advances
to `ReadData`, `NoData`. -/
theorem scd41_step_start (addr ne now : Nat) (c : Option SCD41Response) (b : List Nat)
    (rest : List BusResp) (h : ne ≤ now) :
    ({ address := addr, state := AcquisitionState.StartMeasurement, next_eligible := ne,
        cached := c } : SCD41Sensor).read now (Except.ok b :: rest) =
      (Except.error SCD41Error.NoData,
        { address := addr, state := AcquisitionState.ReadData,
          next_eligible := now + 1000, cached := c }, [I2CTxn.write addr [0x21, 0xb1]]) := by
  simp only [SCD41Sensor.read]
  rw [if_neg (Nat.not_lt.mpr h)]

/-- One eligible `read()` call in the `ReadData` state with a ready
data-ready status: the measurement is read, decoded, cached, and
returned; the machine stays in `ReadData` re-armed 5000 ms later. -/
theorem scd41_step_ready (addr ne now : Nat) (c : Option SCD41Response) (st m : List Nat)
    (rest : List BusResp) (h : ne ≤ now) (hr : (fillBuffer st 9).getD 1 0 ≠ 0) :
    ({ address := addr, state := AcquisitionState.ReadData, next_eligible := ne,
        cached := c } : SCD41Sensor).read now (Except.ok st :: Except.ok m :: rest) =
      (Except.ok (decodeMeasurement (fillBuffer m 9)),
        { address := addr, state := AcquisitionState.ReadData,
          next_eligible := now + 5000, cached := some (decodeMeasurement (fillBuffer m 9)) },
        [I2CTxn.writeRead addr [0xe4, 0xb8] 9, I2CTxn.writeRead addr [0xec, 0x05] 9]) := by
  simp only [SCD41Sensor.read]
  rw [if_neg (Nat.not_lt.mpr h), if_pos hr]

/-- One eligible `read()` call in the `ReadData` state with a not-ready
data-ready status: no measurement read, `NoData`, the machine stays in
`ReadData` re-armed 1000 ms later. -/
theorem scd41_step_notready (addr ne now : Nat) (c : Option SCD41Response) (st : List Nat)
    (rest : List BusResp) (h : ne ≤ now) (hr : (fillBuffer st 9).getD 1 0 = 0) :
    ({ address := addr, state := AcquisitionState.ReadData, next_eligible := ne,
        cached := c } : SCD41Sensor).read now (Except.ok st :: rest) =
      (Except.error SCD41Error.NoData,
        { address := addr, state := AcquisitionState.ReadData,
          next_eligible := now + 1000, cached := c },
        [I2CTxn.writeRead addr [0xe4, 0xb8] 9]) := by
  simp only [SCD41Sensor.read]
  rw [if_neg (Nat.not_lt.mpr h), if_neg (not_not_intro hr)]

/-- C2: starting from a freshly constructed CO2 driver, successive
eligible `read()` calls (each at or after the current `next_eligible`
time, with a working transport) pass through the states Initial,
StopMeasurement, Reinit, StartMeasurement, ReadData in exactly that
order, one state per call, each returning `NoData`; in ReadData a call
still returns `NoData` while data is not ready and produces the
decoded measurement once the data-ready status reports ready. -/
theorem scd41_initialization_sequence (addr t1 t2 t3 t4 t5 : Nat)
    (ready meas nr : List Nat) (hready : (fillBuffer ready 9).getD 1 0 ≠ 0)
    (hnr : (fillBuffer nr 9).getD 1 0 = 0)
    (h2 : t1 + 1000 ≤ t2) (h3 : t2 + 1000 ≤ t3) (h4 : t3 + 1000 ≤ t4) (h5 : t4 + 1000 ≤ t5) :
    (SCD41Sensor.new addr).runReads
        [(t1, []), (t2, [Except.ok []]), (t3, [Except.ok []]), (t4, [Except.ok []]),
          (t5, [Except.ok ready, Except.ok meas])] =
      [(Except.error SCD41Error.NoData, AcquisitionState.StopMeasurement),
        (Except.error SCD41Error.NoData, AcquisitionState.Reinit),
        (Except.error SCD41Error.NoData, AcquisitionState.StartMeasurement),
        (Except.error SCD41Error.NoData, AcquisitionState.ReadData),
        (Except.ok (decodeMeasurement (fillBuffer meas 9)), AcquisitionState.ReadData)] ∧
    (SCD41Sensor.new addr).runReads
        [(t1, []), (t2, [Except.ok []]), (t3, [Except.ok []]), (t4, [Except.ok []]),
          (t5, [Except.ok nr])] =
      [(Except.error SCD41Error.NoData, AcquisitionState.StopMeasurement),
        (Except.error SCD41Error.NoData, AcquisitionState.Reinit),
        (Except.error SCD41Error.NoData, AcquisitionState.StartMeasurement),
        (Except.error SCD41Error.NoData, AcquisitionState.ReadData),
        (Except.error SCD41Error.NoData, AcquisitionState.ReadData)] := by
  have e1 := scd41_step_initial addr 0 none t1 [] (Nat.zero_le t1)
  have e2 := scd41_step_stop addr (t1 + 1000) t2 none [] [] h2
  have e3 := scd41_step_reinit addr (t2 + 1000) t3 none [] [] h3
  have e4 := scd41_step_start addr (t3 + 1000) t4 none [] [] h4
  constructor
  · have e5 := scd41_step_ready addr (t4 + 1000) t5 none ready meas [] h5 hready
    simp only [SCD41Sensor.runReads, SCD41Sensor.new, e1, e2, e3, e4, e5]
  · have e5 := scd41_step_notready addr (t4 + 1000) t5 none nr [] h5 hnr
    simp only [SCD41Sensor.runReads, SCD41Sensor.new, e1, e2, e3, e4, e5]

/-- C2 witness: the five-call sequence at concrete times and buffers. -/
theorem scd41_initialization_sequence_witness :
    (SCD41Sensor.new 0x62).runReads
        [(0, []), (1000, [Except.ok []]), (2000, [Except.ok []]), (3000, [Except.ok []]),
          (4000, [Except.ok [0, 1, 0, 0, 0, 0, 0, 0, 0],
            Except.ok [3, 232, 0, 106, 86, 0, 128, 0, 0]])] =
      [(Except.error SCD41Error.NoData, AcquisitionState.StopMeasurement),
        (Except.error SCD41Error.NoData, AcquisitionState.Reinit),
        (Except.error SCD41Error.NoData, AcquisitionState.StartMeasurement),
        (Except.error SCD41Error.NoData, AcquisitionState.ReadData),
        (Except.ok (decodeMeasurement (fillBuffer [3, 232, 0, 106, 86, 0, 128, 0, 0] 9)),
          AcquisitionState.ReadData)] ∧
    (SCD41Sensor.new 0x62).runReads
        [(0, []), (1000, [Except.ok []]), (2000, [Except.ok []]), (3000, [Except.ok []]),
          (4000, [Except.ok [0, 0, 0, 0, 0, 0, 0, 0, 0]])] =
      [(Except.error SCD41Error.NoData, AcquisitionState.StopMeasurement),
        (Except.error SCD41Error.NoData, AcquisitionState.Reinit),
        (Except.error SCD41Error.NoData, AcquisitionState.StartMeasurement),
        (Except.error SCD41Error.NoData, AcquisitionState.ReadData),
        (Except.error SCD41Error.NoData, AcquisitionState.ReadData)] :=
  scd41_initialization_sequence 0x62 0 1000 2000 3000 4000
    [0, 1, 0, 0, 0, 0, 0, 0, 0] [3, 232, 0, 106, 86, 0, 128, 0, 0] [0, 0, 0, 0, 0, 0, 0, 0, 0]
    (by decide) (by decide) (by omega) (by omega) (by omega) (by omega)

/-- Evaluation of a one-byte register read on a successful scripted
response. -/
theorem read_register_u8_on_ok (addr reg : Nat) (bytes : List Nat) (rest : List BusResp) :
    read_register_u8 addr reg (Except.ok bytes :: rest) =
      (Except.ok ((fillBuffer bytes 1).getD 0 0), rest, [I2CTxn.writeRead addr [reg] 1]) :=
  rfl

/-- The first byte of a one-byte filled read buffer is the first
response byte (zero when the response is empty). -/
theorem fillBuffer_one_getD (bytes : List Nat) :
    (fillBuffer bytes 1).getD 0 0 = bytes.getD 0 0 := by
  match bytes with
  | [] => rfl
  | b :: r => rfl

/-- Every failure of a single register write is a transport failure
surfaced as `I2CError`. -/
theorem write_register_8u_err (addr reg data : Nat) (bus : List BusResp) (e : BME280Error)
    (h : (write_register_8u addr reg data bus).1 = Except.error e) : e = BME280Error.I2CError := by
  match bus with
  | [] => exact (Except.error.inj h).symm
  | Except.error _ :: r => exact (Except.error.inj h).symm
  | Except.ok _ :: r => exact Except.noConfusion h

/-- C8: `setup()` always issues the one-byte chip-identity read as its
first bus transaction; it returns `InvalidChipId` carrying the observed
byte if and only if that read succeeds and the byte differs from 0x60;
and when the identity check fails, the chip-identity read is the whole
transaction trace — the soft-reset command and all later setup steps
are not performed. -/
theorem setup_chip_identity (s : BME280Sensor) (cfg : LowLevelConfiguration) (fuel : Nat)
    (bus : List BusResp) (x : Nat) :
    (s.setup cfg fuel bus).2.2.head? =
        some (I2CTxn.writeRead s.address [BME280_REGISTER_CHIPID] 1) ∧
      ((s.setup cfg fuel bus).1 = Except.error (BME280Error.InvalidChipId x) ↔
        ∃ bytes rest, bus = Except.ok bytes :: rest ∧ x = bytes.getD 0 0 ∧ x ≠ 0x60) ∧
      (∀ bytes rest, bus = Except.ok bytes :: rest → bytes.getD 0 0 ≠ 0x60 →
        (s.setup cfg fuel bus).2.2 =
          [I2CTxn.writeRead s.address [BME280_REGISTER_CHIPID] 1]) := by
  refine ⟨?_, ⟨?_, ?_⟩, ?_⟩
  · simp only [BME280Sensor.setup]
    split
    · simp [read_register_u8_trace]
    · split
      · simp [read_register_u8_trace]
      · split
        · simp [read_register_u8_trace]
        · split
          · simp [read_register_u8_trace]
          · split
            · simp [read_register_u8_trace]
            · split
              · simp [read_register_u8_trace]
              · simp [read_register_u8_trace]
  · intro h
    match bus with
    | [] => exact BME280Error.noConfusion (Except.error.inj h)
    | Except.error _ :: rest => exact BME280Error.noConfusion (Except.error.inj h)
    | Except.ok bytes :: rest =>
      by_cases hb : (fillBuffer bytes 1).getD 0 0 = 0x60
      · exfalso
        simp only [BME280Sensor.setup, read_register_u8_on_ok] at h
        rw [if_neg (not_not_intro hb)] at h
        split at h
        · rename_i e2 heq2
          rw [write_register_8u_err _ _ _ _ _ heq2] at h
          exact BME280Error.noConfusion (Except.error.inj h)
        · split at h
          · exact BME280Error.noConfusion (Except.error.inj h)
          · split at h
            · rename_i e4 heq4
              rw [read_coefficients_err _ _ _ heq4] at h
              exact BME280Error.noConfusion (Except.error.inj h)
            · split at h
              · rename_i e5 heq5
                rw [set_sampling_configuration_err _ _ _ _ heq5] at h
                exact BME280Error.noConfusion (Except.error.inj h)
              · exact Except.noConfusion h
      · refine ⟨bytes, rest, rfl, ?_, ?_⟩
        · simp only [BME280Sensor.setup, read_register_u8_on_ok] at h
          rw [if_pos hb] at h
          have := BME280Error.InvalidChipId.inj (Except.error.inj h)
          rw [← this, fillBuffer_one_getD]
        · simp only [BME280Sensor.setup, read_register_u8_on_ok] at h
          rw [if_pos hb] at h
          have := BME280Error.InvalidChipId.inj (Except.error.inj h)
          rw [← this]
          exact hb
  · rintro ⟨bytes, rest, rfl, hx, hne⟩
    simp only [BME280Sensor.setup, read_register_u8_on_ok]
    rw [if_pos (show (fillBuffer bytes 1).getD 0 0 ≠ 0x60 by
      rw [fillBuffer_one_getD, ← hx]; exact hne)]
    rw [fillBuffer_one_getD, hx]
  · rintro bytes rest rfl hne
    simp only [BME280Sensor.setup, read_register_u8_on_ok]
    rw [if_pos (show (fillBuffer bytes 1).getD 0 0 ≠ 0x60 by
      rw [fillBuffer_one_getD]; exact hne)]

/-- C8 witness: `setup` on a driver observing chip-identity byte 0x61
returns `InvalidChipId 0x61`. -/
theorem setup_chip_identity_witness :
    ((BME280Sensor.new 0x76).setup { config := 0, ctrl_meas := 0, ctrl_hum := 0 } 3
        [Except.ok [0x61]]).1 = Except.error (BME280Error.InvalidChipId 0x61) :=
  (setup_chip_identity (BME280Sensor.new 0x76) { config := 0, ctrl_meas := 0, ctrl_hum := 0 } 3
      [Except.ok [0x61]] 0x61).2.1.mpr ⟨[0x61], [], rfl, rfl, by decide⟩
